import Mathlib

/-!
Verification of the authentication core of the api-gateway repository
(`app/auth/azure_ad.py`, `app/routers/auth.py`) against its specification.

The Python module is shallowly embedded: JSON values are the inductive
`JValue`, Python dictionaries are association lists, Python exceptions are
the `PyError` sum carried in `Except`, and the two external collaborators
(the `httpx` HTTP client and the `jose` JWT library) are oracles passed as
explicit parameters.  Outbound HTTP fetches are made observable by having
the fetching functions return, next to their result, the list of URLs they
fetched.  The time read performed inside each `jwt.decode` call is made
observable by passing a clock stream `clock : Nat -> Nat`; the i-th decode
call of a validation receives the sample `clock i`.
-/

namespace AzureAD

/-- JSON-like values, the payloads of claims maps, JWKS documents and
discovery documents. -/
inductive JValue where
  | jnull
  | jbool (b : Bool)
  | jnum (n : Int)
  | jstr (s : String)
  | jlist (xs : List JValue)
  | jobj (fields : List (String × JValue))

/-- Python truthiness of a JSON value (`bool(v)`): `None`, `False`, `0`,
empty strings and empty containers are falsy. -/
def JValue.truthy : JValue → Bool
  | .jnull => false
  | .jbool b => b
  | .jnum n => n != 0
  | .jstr s => s != ""
  | .jlist xs => !xs.isEmpty
  | .jobj fs => !fs.isEmpty

mutual

/-- Python equality `==` restricted to JSON values (structural). -/
def JValue.beq : JValue → JValue → Bool
  | .jnull, .jnull => true
  | .jbool a, .jbool b => a == b
  | .jnum a, .jnum b => a == b
  | .jstr a, .jstr b => a == b
  | .jlist xs, .jlist ys => beqL xs ys
  | .jobj xs, .jobj ys => beqF xs ys
  | _, _ => false

/-- Elementwise equality of list values. -/
def beqL : List JValue → List JValue → Bool
  | [], [] => true
  | a :: as, b :: bs => JValue.beq a b && beqL as bs
  | _, _ => false

/-- Fieldwise equality of object values. -/
def beqF : List (String × JValue) → List (String × JValue) → Bool
  | [], [] => true
  | (k, v) :: xs, (l, w) :: ys => k == l && JValue.beq v w && beqF xs ys
  | _, _ => false

end

mutual

/-- Python `repr` of a JSON value. -/
def pyRepr : JValue → String
  | .jnull => "None"
  | .jbool true => "True"
  | .jbool false => "False"
  | .jnum n => toString n
  | .jstr s => "\x27" ++ s ++ "\x27"
  | .jlist xs => "[" ++ String.intercalate ", " (pyReprList xs) ++ "]"
  | .jobj fs => "\x7b" ++ String.intercalate ", " (pyReprFields fs) ++ "\x7d"

/-- The reprs of the elements of a list value. -/
def pyReprList : List JValue → List String
  | [] => []
  | x :: xs => pyRepr x :: pyReprList xs

/-- The reprs of the fields of an object value. -/
def pyReprFields : List (String × JValue) → List String
  | [] => []
  | (k, v) :: fs => ("\x27" ++ k ++ "\x27: " ++ pyRepr v) :: pyReprFields fs

end

/-- Python `str()` of a JSON value: strings unchanged, other values via
their repr. -/
def pyStr : JValue → String
  | .jstr s => s
  | v => pyRepr v

/-- A Python dictionary with string keys, as produced by `resp.json()` or
`jwt.decode`. -/
abbrev Dict := List (String × JValue)

/-- Python `d.get(k)`: the value under the first binding of `k`, `None`
when absent. -/
def dGet (d : Dict) (k : String) : JValue :=
  (d.lookup k).getD .jnull

/-- Python `a or b` on JSON values. -/
def pyOr (a b : JValue) : JValue :=
  if a.truthy then a else b

/-- Python exceptions that the embedded code can raise. -/
inductive PyError where
  | httpException (statusCode : Nat) (detail : String)
  | joseError (msg : String)
  | runtimeError (msg : String)
  | httpxError (msg : String)
  | attributeError
  | typeError
  | indexError
deriving DecidableEq

/-- Whether an error is a FastAPI `HTTPException` with status 401, i.e.
one of the unauthorized-kind failures of the auth module. -/
def PyError.isUnauthorized : PyError → Bool
  | .httpException 401 _ => true
  | _ => false

/-- Python `d.get(k, default)` on an arbitrary JSON value: attribute error
when the receiver is not a dictionary (as in CPython). -/
def pyDictGetD (v : JValue) (k : String) (d : JValue) : Except PyError JValue :=
  match v with
  | .jobj fs => .ok ((fs.lookup k).getD d)
  | _ => .error .attributeError

/-- The first truthy value among the claims stored under the given keys
(the `for key in (...)` loop of `_extract_email_from_claims`). -/
def firstTruthy (claims : Dict) : List String → Option JValue
  | [] => none
  | k :: ks =>
    let v := dGet claims k
    if v.truthy then some v else firstTruthy claims ks

/-- Embedding of `_extract_email_from_claims`: first truthy of
`preferred_username`, `upn`, `email`; otherwise the head of a non-empty
list-valued `emails` claim; otherwise `None`. -/
def _extract_email_from_claims (claims : Dict) : JValue :=
  match firstTruthy claims ["preferred_username", "upn", "email"] with
  | some v => v
  | none =>
    match dGet claims "emails" with
    | .jlist (x :: _) => x
    | _ => .jnull

/-- Embedding of `_extract_groups_from_claims`:
`groups = claims.get("groups") or []`, then each element of a list value is
coerced with `str`, any non-list value yields the empty list. -/
def _extract_groups_from_claims (claims : Dict) : List String :=
  let groups := pyOr (dGet claims "groups") (.jlist [])
  match groups with
  | .jlist xs => xs.map pyStr
  | _ => []

/-- The user-information record built by `build_user_info_from_claims`. -/
structure UserInfo where
  id : JValue
  name : JValue
  email : JValue
  groups : List String
  raw_claims : Dict

/-- Embedding of `build_user_info_from_claims`. -/
def build_user_info_from_claims (claims : Dict) : UserInfo :=
  let email := _extract_email_from_claims claims
  let groups := _extract_groups_from_claims claims
  { id := pyOr (dGet claims "oid") (dGet claims "sub")
    name := dGet claims "name"
    email := email
    groups := groups
    raw_claims := claims }

/-- The fields of `AzureADSettings` after construction (the constructor
itself, which reads environment variables and fails fast when tenant or
client id is missing, is outside the claims under verification). -/
structure AzureADSettings where
  tenant_id : String
  client_id : String
  issuer : String
  openid_config_url : String
  jwks_uri : Option String
  audience : String

/-- Oracle for the `httpx` client: `get url` models
`client.get(url); resp.raise_for_status(); resp.json()` — either the parsed
JSON body or the raised exception (`httpxError` for a network failure or a
non-success status). -/
structure HttpOracle where
  get : String → Except PyError JValue

/-- Oracle for the `jose` JWT library.
`getUnverifiedHeader token` models `jwt.get_unverified_header(token)`:
the parsed header dictionary, or the message of the `JWTError` the parser
raises on a structurally malformed token.
`decode token key aud iss now` models one call
`jwt.decode(token, key, algorithms=["RS256"], audience=aud, issuer=iss)`:
`now` is the current-time sample that this particular decode invocation
reads internally when checking `exp` (python-jose reads the clock inside
each call); the result is the verified claims dictionary or the message of
the raised `JWTError`. -/
structure JoseOracle where
  getUnverifiedHeader : String → Except String Dict
  decode : String → JValue → String → String → Nat → Except String Dict

/-- Detail string of the 401 raised when the token header has no kid. -/
def missingKidMsg : String := "Token sin \x27kid\x27 en el encabezado"

/-- Detail string of the 401 raised when no JWKS entry matches the kid. -/
def unknownKeyMsg : String := "No se encontró clave de firma para el token"

/-- Detail string of the 401 raised when the Authorization header is
absent or does not carry a bearer token. -/
def missingAuthMsg : String := "Falta encabezado Authorization con Bearer token"

/-- Detail string of the 401 raised when the bearer token is empty. -/
def emptyTokenMsg : String := "Token Bearer vacío"

/-- Message of the RuntimeError raised when the discovery document has no
usable jwks_uri. -/
def jwksUriMissingMsg : String :=
  "No se pudo obtener jwks_uri desde la configuración OpenID"

/-- Detail string of the 401 raised when every verification combination
failed, carrying the last error. -/
def tokenInvalidMsg (e : String) : String := "Token inválido: " ++ e

/-- Embedding of `get_openid_config` (one uncached invocation): a single
GET of the configured discovery URL.  The second component is the list of
URLs fetched during the call. -/
def get_openid_config (http : HttpOracle) (s : AzureADSettings) :
    Except PyError JValue × List String :=
  (http.get s.openid_config_url, [s.openid_config_url])

/-- Embedding of `get_jwks` (one uncached invocation): fetch directly from
a configured (truthy) explicit JWKS URL, otherwise resolve the URL through
the discovery document, raising a RuntimeError when the document has no
truthy `jwks_uri` field.  The second component is the list of URLs fetched
during the call. -/
def get_jwks (http : HttpOracle) (s : AzureADSettings) :
    Except PyError JValue × List String :=
  let uriOpt : Option String :=
    match s.jwks_uri with
    | some u => if u = "" then none else some u
    | none => none
  match uriOpt with
  | some u => (http.get u, [u])
  | none =>
    match get_openid_config http s with
    | (.error e, log) => (.error e, log)
    | (.ok config, log) =>
      match pyDictGetD config "jwks_uri" .jnull with
      | .error e => (.error e, log)
      | .ok ju =>
        if ju.truthy then
          match ju with
          | .jstr u => (http.get u, log ++ [u])
          | _ => (.error .typeError, log)
        else (.error (.runtimeError jwksUriMissingMsg), log)

/-- The scan `for key in jwks.get("keys", []): if key.get("kid") == kid`
over the entries of the key set. -/
def findKeyByKid (kid : JValue) : List JValue → Except PyError (Option JValue)
  | [] => .ok none
  | key :: rest =>
    match key with
    | .jobj fs =>
      if JValue.beq ((fs.lookup "kid").getD .jnull) kid then .ok (some key)
      else findKeyByKid kid rest
    | _ => .error .attributeError

/-- Embedding of `_get_signing_key`: read the unverified token header (a
parse failure propagates as an uncaught `joseError`), require a truthy
`kid` (401 `missingKidMsg` otherwise), and scan the cached key set for a
matching entry (401 `unknownKeyMsg` when none matches).  The function
performs no HTTP fetch. -/
def _get_signing_key (oracle : JoseOracle) (token : String) (jwks : JValue) :
    Except PyError JValue :=
  match oracle.getUnverifiedHeader token with
  | .error e => .error (.joseError e)
  | .ok headers =>
    let kid := dGet headers "kid"
    if kid.truthy then
      match pyDictGetD jwks "keys" (.jlist []) with
      | .error e => .error e
      | .ok keysVal =>
        match keysVal with
        | .jlist keys =>
          match findKeyByKid kid keys with
          | .error e => .error e
          | .ok (some k) => .ok k
          | .ok none => .error (.httpException 401 unknownKeyMsg)
        | _ => .error .typeError
    else .error (.httpException 401 missingKidMsg)

/-- The two acceptable issuers, in source order: the configured issuer and
the v1 legacy issuer derived from the tenant id. -/
def allowed_issuers (s : AzureADSettings) : List String :=
  [s.issuer, "https://sts.windows.net/" ++ s.tenant_id ++ "/"]

/-- The legacy v1 issuer string. -/
def legacy_issuer (s : AzureADSettings) : String :=
  "https://sts.windows.net/" ++ s.tenant_id ++ "/"

/-- The two acceptable audiences, in source order: the configured audience
and the bare client id. -/
def allowed_audiences (s : AzureADSettings) : List String :=
  [s.audience, s.client_id]

/-- The ordered candidate (audience, issuer) pairs produced by the nested
`for aud in allowed_audiences: for iss in allowed_issuers:` loops
(audiences outer, issuers inner). -/
def combos (s : AzureADSettings) : List (String × String) :=
  (allowed_audiences s).flatMap fun aud => (allowed_issuers s).map fun iss => (aud, iss)

/-- The nested verification loop of `validate_jwt` over a list of
(audience, issuer) pairs: each attempt calls `jwt.decode` (which samples
the clock at the attempt index), the first success is returned, a failure
is recorded in `last_error` and the next pair is tried; on exhaustion the
recorded last error is returned.  The second component is the list of
pairs actually attempted. -/
def tryCombinations (oracle : JoseOracle) (clock : Nat → Nat) (token : String)
    (key : JValue) :
    List (String × String) → Nat → Option String →
      Except (Option String) Dict × List (String × String)
  | [], _, lastErr => (.error lastErr, [])
  | (aud, iss) :: rest, i, _lastErr =>
    match oracle.decode token key aud iss (clock i) with
    | .ok claims => (.ok claims, [(aud, iss)])
    | .error e =>
      let r := tryCombinations oracle clock token key rest (i + 1) (some e)
      (r.1, (aud, iss) :: r.2)

/-- Python `str(last_error)` where `last_error` may still be `None`. -/
def strOfLastError : Option String → String
  | none => "None"
  | some e => e

/-- Embedding of `validate_jwt`: fetch the JWKS (via the cache function
`get_jwks`), resolve the signing key, then try the four
(audience, issuer) combinations in order, returning the first success or a
401 carrying the last error.  (The unverified-claims block of the source
only logs and is semantically inert.)  The second component is the list of
URLs fetched during the call. -/
def validate_jwt (oracle : JoseOracle) (clock : Nat → Nat) (http : HttpOracle)
    (token : String) (s : AzureADSettings) :
    Except PyError Dict × List String :=
  match get_jwks http s with
  | (.error e, log) => (.error e, log)
  | (.ok jwks, log) =>
    match _get_signing_key oracle token jwks with
    | .error e => (.error e, log)
    | .ok signing_jwk =>
      match tryCombinations oracle clock token signing_jwk (combos s) 0 none with
      | (.ok claims, _) => (.ok claims, log)
      | (.error lastErr, _) =>
        (.error (.httpException 401 (tokenInvalidMsg (strOfLastError lastErr))), log)

/-- Python `s.lower()` (ASCII case folding suffices for the claims). -/
def pyLower (s : String) : String := ⟨s.data.map Char.toLower⟩

/-- Helper for `s.startswith(p)`: character-list comparison of a candidate
leading segment. -/
def charsStartWith : List Char → List Char → Bool
  | _, [] => true
  | [], _ :: _ => false
  | a :: as, b :: bs => a == b && charsStartWith as bs

/-- Python `s.startswith(p)`. -/
def pyStartsWith (s p : String) : Bool := charsStartWith s.data p.data

/-- Helper for `s.split(" ", 1)`: split a character list at the first
space. -/
def splitOnceSpaceAux : List Char → Option (List Char × List Char)
  | [] => none
  | c :: cs =>
    if c = ' ' then some ([], cs)
    else
      match splitOnceSpaceAux cs with
      | some (pre, post) => some (c :: pre, post)
      | none => none

/-- Python `s.split(" ", 1)` when the string contains a space: the part
before the first space and the part after it; `none` when there is no
space (in which case indexing `[1]` would raise). -/
def splitOnceSpace (s : String) : Option (String × String) :=
  match splitOnceSpaceAux s.data with
  | some (pre, post) => some (⟨pre⟩, ⟨post⟩)
  | none => none

/-- Python `s.strip()`: remove whitespace from both ends. -/
def pyStrip (s : String) : String :=
  ⟨((s.data.dropWhile Char.isWhitespace).reverse.dropWhile Char.isWhitespace).reverse⟩

/-- The Authorization-header handling of `get_current_user_claims`:
require a header whose lowercased value starts with the seven characters
of the word bearer followed by a space (401 `missingAuthMsg` otherwise),
take the text after the first space, strip it, and require the result to
be non-empty (401 `emptyTokenMsg` otherwise). -/
def extract_bearer_token (auth_header : Option String) : Except PyError String :=
  match auth_header with
  | none => .error (.httpException 401 missingAuthMsg)
  | some h =>
    if h = "" then .error (.httpException 401 missingAuthMsg)
    else if pyStartsWith (pyLower h) "bearer " then
      match splitOnceSpace h with
      | none => .error .indexError
      | some (_, rest) =>
        let token := pyStrip rest
        if token = "" then .error (.httpException 401 emptyTokenMsg)
        else .ok token
    else .error (.httpException 401 missingAuthMsg)

/-- Embedding of `get_current_user_claims`, abstracted over the token
validator it invokes (the source binds `validate` to
`validate_jwt(token, settings)`): extract the bearer token from the
Authorization header, then validate it. -/
def get_current_user_claims (validate : String → Except PyError Dict)
    (auth_header : Option String) : Except PyError Dict :=
  match extract_bearer_token auth_header with
  | .error e => .error e
  | .ok token => validate token

/-- The user object returned by the `/auth/me` route: the projected
identity without the raw claims. -/
structure UserPublic where
  id : JValue
  name : JValue
  email : JValue
  groups : List String

/-- Embedding of the `/auth/me` route `read_current_user`: obtain the
verified claims through `get_current_user_claims` (propagating its
failures), project them with `build_user_info_from_claims` and return the
id, name, email and groups fields. -/
def read_current_user (validate : String → Except PyError Dict)
    (auth_header : Option String) : Except PyError UserPublic :=
  match get_current_user_claims validate auth_header with
  | .error e => .error e
  | .ok claims =>
    let ui := build_user_info_from_claims claims
    .ok { id := ui.id, name := ui.name, email := ui.email, groups := ui.groups }

/-- Follows the wording of the spec, section 4.2, Steps 4 and 5: given the
outcomes of the four verification attempts in the fixed order
(audience, issuer), (audience, legacy issuer), (client id, issuer),
(client id, legacy issuer), the first success wins; on exhaustion the
validation fails with the unauthorized kind carrying only the last
attempt's error message.  This definition is the specification-side
description against which the nested loop of `validate_jwt` is compared. -/
def spec_first_success (r0 r1 r2 r3 : Except String Dict) : Except PyError Dict :=
  match r0 with
  | .ok c => .ok c
  | .error _ =>
    match r1 with
    | .ok c => .ok c
    | .error _ =>
      match r2 with
      | .ok c => .ok c
      | .error _ =>
        match r3 with
        | .ok c => .ok c
        | .error e3 => .error (.httpException 401 (tokenInvalidMsg e3))

/-- Follows the wording of the spec, section 4.2, numeric/time semantics:
the validation call reads the clock once at the start (read index 0) and
every verification attempt shares that single sample. -/
def validate_jwt_single_now (oracle : JoseOracle) (clock : Nat → Nat)
    (http : HttpOracle) (token : String) (s : AzureADSettings) :
    Except PyError Dict × List String :=
  validate_jwt oracle (fun _ => clock 0) http token s

/-- Concrete provider settings used to instantiate the theorems. -/
def demoSettings : AzureADSettings :=
  { tenant_id := "tid"
    client_id := "cid"
    issuer := "https://login.microsoftonline.com/tid/v2.0"
    openid_config_url := "https://example/openid"
    jwks_uri := some "https://example/jwks"
    audience := "api://cid" }

/-- A concrete JWKS entry with kid k1. -/
def demoKey : JValue := .jobj [("kid", .jstr "k1"), ("kty", .jstr "RSA")]

/-- A concrete JWKS document holding only `demoKey`. -/
def demoJwks : JValue := .jobj [("keys", .jlist [demoKey])]

/-- A concrete HTTP oracle serving `demoJwks` at the configured JWKS URL. -/
def demoHttp : HttpOracle :=
  { get := fun url =>
      if url = "https://example/jwks" then .ok demoJwks
      else .error (.httpxError "connection failed") }

/-- A concrete verified-claims payload. -/
def demoClaims : Dict := [("sub", .jstr "u1"), ("name", .jstr "User One")]

/-- A concrete unverified token header naming kid k1. -/
def demoHeader : Dict := [("alg", .jstr "RS256"), ("kid", .jstr "k1")]

/-- A jose oracle for which verification succeeds exactly at the third
combination (bare client id with the configured issuer). -/
def demoOracle : JoseOracle :=
  { getUnverifiedHeader := fun _ => .ok demoHeader
    decode := fun _ _ aud iss _ =>
      if aud = "cid" then
        if iss = "https://login.microsoftonline.com/tid/v2.0" then .ok demoClaims
        else .error "Invalid issuer"
      else .error "Invalid audience" }

/-- A jose oracle for which every verification attempt fails, with a
message recording the attempted combination. -/
def demoOracleFail : JoseOracle :=
  { getUnverifiedHeader := fun _ => .ok demoHeader
    decode := fun _ _ aud iss _ => .error (aud ++ "|" ++ iss) }

/-- A jose oracle modelling a token with exp = 10 that only matches the
legacy combination (bare client id with the legacy issuer): the attempt
succeeds when its clock sample is at most 10 and reports expiry
otherwise. -/
def demoOracleExp : JoseOracle :=
  { getUnverifiedHeader := fun _ => .ok demoHeader
    decode := fun _ _ aud iss now =>
      if aud = "cid" then
        if iss = "https://sts.windows.net/tid/" then
          if now ≤ 10 then .ok demoClaims else .error "Signature has expired."
        else .error "Invalid issuer"
      else .error "Invalid audience" }

/-- A clock that advances past the exp of `demoOracleExp` after the first
read: read 0 happens at time 5, later reads at time 20. -/
def demoClockAdvance : Nat → Nat := fun i => if i = 0 then 5 else 20

/-- A jose oracle with distinguished tokens: the header of token bad does
not parse, token nokid parses to a header with no kid, token unknown
parses to a header naming the unknown kid zz, and every other token
parses to `demoHeader`. -/
def demoOracleHdr : JoseOracle :=
  { getUnverifiedHeader := fun t =>
      if t = "bad" then .error "Error decoding token headers."
      else if t = "nokid" then .ok [("alg", .jstr "RS256")]
      else if t = "unknown" then .ok [("alg", .jstr "RS256"), ("kid", .jstr "zz")]
      else .ok demoHeader
    decode := fun _ _ _ _ _ => .error "Signature verification failed." }

/-- A concrete validator that succeeds on every token, recording the token
it received in the sub claim. -/
def demoValidate : String → Except PyError Dict := fun t => .ok [("sub", .jstr t)]

/-- Settings with no explicit JWKS URL, forcing resolution through the
discovery document. -/
def demoSettingsNoJwksUri : AzureADSettings :=
  { demoSettings with jwks_uri := none }

/-- An HTTP oracle whose discovery document lacks the jwks_uri field. -/
def demoHttpNoUri : HttpOracle :=
  { get := fun url =>
      if url = "https://example/openid" then .ok (.jobj [("issuer", .jstr "x")])
      else .error (.httpxError "connection failed") }

/-- Unfolding lemma for the verification loop: once the JWKS fetch and the
signing-key resolution have succeeded, `validate_jwt` computes exactly the
first-success cascade over the four ordered combinations, the i-th attempt
receiving the clock sample at read index i. -/
theorem validate_jwt_run (oracle : JoseOracle) (clock : Nat → Nat)
    (http : HttpOracle) (token : String) (s : AzureADSettings)
    (jwks key : JValue) (log : List String)
    (hj : get_jwks http s = (.ok jwks, log))
    (hk : _get_signing_key oracle token jwks = .ok key) :
    validate_jwt oracle clock http token s =
      (spec_first_success
        (oracle.decode token key s.audience s.issuer (clock 0))
        (oracle.decode token key s.audience (legacy_issuer s) (clock 1))
        (oracle.decode token key s.client_id s.issuer (clock 2))
        (oracle.decode token key s.client_id (legacy_issuer s) (clock 3)),
       log) := by
  have hc : combos s = [(s.audience, s.issuer), (s.audience, legacy_issuer s),
      (s.client_id, s.issuer), (s.client_id, legacy_issuer s)] := rfl
  unfold validate_jwt
  rw [hj]
  dsimp only
  rw [hk, hc]
  dsimp only
  simp only [tryCombinations, spec_first_success]
  cases h0 : oracle.decode token key s.audience s.issuer (clock 0) with
  | ok c => rfl
  | error e0 =>
    cases h1 : oracle.decode token key s.audience (legacy_issuer s) (clock 1) with
    | ok c => rfl
    | error e1 =>
      cases h2 : oracle.decode token key s.client_id s.issuer (clock 2) with
      | ok c => rfl
      | error e2 =>
        cases h3 : oracle.decode token key s.client_id (legacy_issuer s) (clock 3) with
        | ok c => rfl
        | error e3 => rfl

/-- C1: for every token and settings, once the key set is fetched and the
signing key resolved, `validate_jwt` attempts verification for exactly the
four (audience, issuer) pairs drawn from audiences (configured audience,
bare client id) and issuers (configured issuer, legacy issuer
sts.windows.net/tenant), audiences in the outer loop and issuers in the
inner loop, stopping at the first successful verification and returning
that combination's claims: its candidate list `combos` is exactly that
ordered four-element list and its result is the first-success cascade
`spec_first_success` over the four attempts in that order. -/
theorem c1_validate_four_combinations (oracle : JoseOracle) (clock : Nat → Nat)
    (http : HttpOracle) (token : String) (s : AzureADSettings)
    (jwks key : JValue) (log : List String)
    (hj : get_jwks http s = (.ok jwks, log))
    (hk : _get_signing_key oracle token jwks = .ok key) :
    combos s = [(s.audience, s.issuer), (s.audience, legacy_issuer s),
      (s.client_id, s.issuer), (s.client_id, legacy_issuer s)]
    ∧ (validate_jwt oracle clock http token s).1 =
        spec_first_success
          (oracle.decode token key s.audience s.issuer (clock 0))
          (oracle.decode token key s.audience (legacy_issuer s) (clock 1))
          (oracle.decode token key s.client_id s.issuer (clock 2))
          (oracle.decode token key s.client_id (legacy_issuer s) (clock 3)) := by
  refine ⟨rfl, ?_⟩
  rw [validate_jwt_run oracle clock http token s jwks key log hj hk]

/-- Witness for C1 at concrete inputs: with `demoOracle` the first two
attempts fail and the third (bare client id, configured issuer) succeeds,
so validation returns its claims. -/
theorem c1_witness :
    (validate_jwt demoOracle (fun _ => 0) demoHttp "tok" demoSettings).1 =
      .ok demoClaims := by
  have h := c1_validate_four_combinations demoOracle (fun _ => 0) demoHttp "tok"
    demoSettings demoJwks demoKey ["https://example/jwks"] (by rfl) (by rfl)
  rw [h.2]
  rfl

/-- C2: when all four (audience, issuer) attempts fail, `validate_jwt`
fails with the unauthorized 401 kind and its detail carries only the
message of the last-seen error (that of the fourth attempt): the carried
description is a function of e3 alone, independent of the messages e0, e1
and e2 of the earlier attempts. -/
theorem c2_all_fail_carries_last_error (oracle : JoseOracle) (clock : Nat → Nat)
    (http : HttpOracle) (token : String) (s : AzureADSettings)
    (jwks key : JValue) (log : List String) (e0 e1 e2 e3 : String)
    (hj : get_jwks http s = (.ok jwks, log))
    (hk : _get_signing_key oracle token jwks = .ok key)
    (h0 : oracle.decode token key s.audience s.issuer (clock 0) = .error e0)
    (h1 : oracle.decode token key s.audience (legacy_issuer s) (clock 1) = .error e1)
    (h2 : oracle.decode token key s.client_id s.issuer (clock 2) = .error e2)
    (h3 : oracle.decode token key s.client_id (legacy_issuer s) (clock 3) = .error e3) :
    (validate_jwt oracle clock http token s).1 =
      .error (.httpException 401 (tokenInvalidMsg e3)) := by
  rw [validate_jwt_run oracle clock http token s jwks key log hj hk]
  simp only [spec_first_success, h0, h1, h2, h3]

/-- Witness for C2 at concrete inputs: with `demoOracleFail` every attempt
fails with a message recording its combination, and the carried detail is
that of the fourth combination (bare client id, legacy issuer) only. -/
theorem c2_witness :
    (validate_jwt demoOracleFail (fun _ => 0) demoHttp "tok" demoSettings).1 =
      .error (.httpException 401 (tokenInvalidMsg "cid|https://sts.windows.net/tid/")) := by
  exact c2_all_fail_carries_last_error demoOracleFail (fun _ => 0) demoHttp "tok"
    demoSettings demoJwks demoKey ["https://example/jwks"]
    "api://cid|https://login.microsoftonline.com/tid/v2.0"
    "api://cid|https://sts.windows.net/tid/"
    "cid|https://login.microsoftonline.com/tid/v2.0"
    "cid|https://sts.windows.net/tid/"
    (by rfl) (by rfl) (by rfl) (by rfl) (by rfl) (by rfl)

/-- The verification loop is insensitive to replacing the clock by the
constant clock frozen at read 0 whenever the clock does not change over
the reads the list will consume. -/
theorem tryCombinations_const_clock (oracle : JoseOracle) (clock : Nat → Nat)
    (token : String) (key : JValue) (l : List (String × String)) :
    ∀ (i : Nat) (le : Option String),
      (∀ j, i ≤ j → j < i + l.length → clock j = clock 0) →
      tryCombinations oracle clock token key l i le =
        tryCombinations oracle (fun _ => clock 0) token key l i le := by
  induction l with
  | nil => intro i le _; rfl
  | cons p rest ih =>
    intro i le h
    obtain ⟨aud, iss⟩ := p
    have hi : clock i = clock 0 := h i (Nat.le_refl i) (by simp)
    simp only [tryCombinations, hi]
    cases hd : oracle.decode token key aud iss (clock 0) with
    | ok c => rfl
    | error e =>
      dsimp only
      rw [ih (i + 1) (some e) (fun j hj1 hj2 => h j (by omega) (by simp at hj2 ⊢; omega))]

/-- C3 counterexample: a token matching only the legacy combination with
exp 10, validated while the clock advances from 5 (first read) to 20
(later reads).  The implementation, whose fourth attempt re-reads the
clock and sees 20, rejects the token as expired, while the single-shared-
sample semantics `validate_jwt_single_now` accepts it: the expiry
comparison does not use one clock value read once at the start of the
call. -/
theorem c3_counterexample :
    (validate_jwt demoOracleExp demoClockAdvance demoHttp "tok" demoSettings).1 =
      .error (.httpException 401 (tokenInvalidMsg "Signature has expired."))
    ∧ (validate_jwt_single_now demoOracleExp demoClockAdvance demoHttp "tok"
        demoSettings).1 = .ok demoClaims
    ∧ validate_jwt demoOracleExp demoClockAdvance demoHttp "tok" demoSettings ≠
        validate_jwt_single_now demoOracleExp demoClockAdvance demoHttp "tok"
          demoSettings := by
  have hL : (validate_jwt demoOracleExp demoClockAdvance demoHttp "tok"
      demoSettings).1 =
      .error (.httpException 401 (tokenInvalidMsg "Signature has expired.")) := by rfl
  have hR : (validate_jwt_single_now demoOracleExp demoClockAdvance demoHttp "tok"
      demoSettings).1 = .ok demoClaims := by rfl
  refine ⟨hL, hR, ?_⟩
  intro h
  rw [congrArg Prod.fst h] at hL
  rw [hR] at hL
  exact Except.noConfusion hL

/-- C3 as amended by the counterexample: each of the four verification
attempts samples the clock itself (the i-th attempt uses read index i),
so all four attempts share one sample exactly when the clock does not
advance over reads 0 to 3, in which case the behaviour coincides with the
single-shared-sample semantics. -/
theorem c3_amended_clock_per_attempt (oracle : JoseOracle) (clock : Nat → Nat)
    (http : HttpOracle) (token : String) (s : AzureADSettings)
    (h : ∀ i, i < 4 → clock i = clock 0) :
    validate_jwt oracle clock http token s =
      validate_jwt_single_now oracle clock http token s := by
  unfold validate_jwt_single_now
  unfold validate_jwt
  cases hg : get_jwks http s with
  | mk r log =>
    cases r with
    | error e => rfl
    | ok jwks =>
      dsimp only
      cases hk : _get_signing_key oracle token jwks with
      | error e => rfl
      | ok key =>
        dsimp only
        rw [tryCombinations_const_clock oracle clock token key (combos s) 0 none
          (fun j _ hj2 => h j (by simpa using hj2))]

/-- Witness for C3 as amended: under a constant clock the implementation
and the single-shared-sample semantics agree, and the legacy-combination
token of `demoOracleExp` is accepted at time 5. -/
theorem c3_witness :
    validate_jwt demoOracleExp (fun _ => 5) demoHttp "tok" demoSettings =
      validate_jwt_single_now demoOracleExp (fun _ => 5) demoHttp "tok" demoSettings
    ∧ (validate_jwt demoOracleExp (fun _ => 5) demoHttp "tok" demoSettings).1 =
        .ok demoClaims :=
  ⟨c3_amended_clock_per_attempt demoOracleExp (fun _ => 5) demoHttp "tok"
    demoSettings (fun _ _ => rfl), by rfl⟩

/-- C4: the projection of a claims map to a user-information record is
total — it is a plain function defined on every claims map, including the
empty one — and absent claims degrade to absent fields: with no oid and no
sub the id is None, with no name claim the name is None, with none of the
email-bearing claims the email is None, and an absent or non-list groups
claim yields the empty group list. -/
theorem c4_projection_total (claims : Dict) :
    (build_user_info_from_claims claims).raw_claims = claims
  ∧ (claims.lookup "oid" = none → claims.lookup "sub" = none →
      (build_user_info_from_claims claims).id = .jnull)
  ∧ (claims.lookup "name" = none →
      (build_user_info_from_claims claims).name = .jnull)
  ∧ (claims.lookup "preferred_username" = none → claims.lookup "upn" = none →
      claims.lookup "email" = none → claims.lookup "emails" = none →
      (build_user_info_from_claims claims).email = .jnull)
  ∧ (claims.lookup "groups" = none →
      (build_user_info_from_claims claims).groups = [])
  ∧ (∀ v, claims.lookup "groups" = some v → (∀ xs, v ≠ .jlist xs) →
      (build_user_info_from_claims claims).groups = []) := by
  refine ⟨rfl, ?_, ?_, ?_, ?_, ?_⟩
  · intro hoid hsub
    simp [build_user_info_from_claims, pyOr, dGet, hoid, hsub, JValue.truthy]
  · intro hname
    simp [build_user_info_from_claims, dGet, hname]
  · intro hpu hupn hem hems
    simp [build_user_info_from_claims, _extract_email_from_claims, firstTruthy,
      dGet, hpu, hupn, hem, hems, JValue.truthy]
  · intro hg
    simp [build_user_info_from_claims, _extract_groups_from_claims, pyOr, dGet,
      hg, JValue.truthy]
  · intro v hv hnl
    cases v with
    | jnull =>
      simp [build_user_info_from_claims, _extract_groups_from_claims, pyOr,
        dGet, hv, JValue.truthy]
    | jbool b =>
      cases b <;>
        simp [build_user_info_from_claims, _extract_groups_from_claims, pyOr,
          dGet, hv, JValue.truthy]
    | jnum n =>
      by_cases hn : n = 0 <;>
        simp [build_user_info_from_claims, _extract_groups_from_claims, pyOr,
          dGet, hv, JValue.truthy, hn]
    | jstr t =>
      by_cases ht : t = "" <;>
        simp [build_user_info_from_claims, _extract_groups_from_claims, pyOr,
          dGet, hv, JValue.truthy, ht]
    | jlist xs => exact absurd rfl (hnl xs)
    | jobj fs =>
      cases fs <;>
        simp [build_user_info_from_claims, _extract_groups_from_claims, pyOr,
          dGet, hv, JValue.truthy]

/-- Witness for C4 at concrete inputs: the empty claims map projects to a
record with all optional fields absent and no groups, and a truthy
non-list groups claim also projects to the empty group list. -/
theorem c4_witness :
    (build_user_info_from_claims []).id = .jnull
  ∧ (build_user_info_from_claims []).name = .jnull
  ∧ (build_user_info_from_claims []).email = .jnull
  ∧ (build_user_info_from_claims []).groups = []
  ∧ (build_user_info_from_claims [("groups", JValue.jstr "g")]).groups = [] := by
  have h := c4_projection_total []
  have h2 := c4_projection_total [("groups", JValue.jstr "g")]
  exact ⟨h.2.1 rfl rfl, h.2.2.1 rfl, h.2.2.2.1 rfl rfl rfl rfl,
    h.2.2.2.2.1 rfl,
    h2.2.2.2.2.2 (JValue.jstr "g") rfl (fun xs hxs => JValue.noConfusion hxs)⟩

/-- C5: the gateway requires an Authorization header whose (lowercased)
value carries a bearer token: an absent header, a header without the
bearer prefix, or an empty token after stripping each fail with a 401 of
the missing-credentials kind whose value does not depend on the validator
(the validator is not invoked); otherwise the extracted token is passed to
the validator, a validator failure propagates unchanged, and a validator
success is projected to the public identity record. -/
theorem c5_gateway (validate : String → Except PyError Dict)
    (auth_header : Option String) :
    (auth_header = none →
      read_current_user validate auth_header =
        .error (.httpException 401 missingAuthMsg))
  ∧ (∀ h, auth_header = some h → pyStartsWith (pyLower h) "bearer " = false →
      read_current_user validate auth_header =
        .error (.httpException 401 missingAuthMsg))
  ∧ (∀ h pre rest, auth_header = some h →
      pyStartsWith (pyLower h) "bearer " = true →
      splitOnceSpace h = some (pre, rest) → pyStrip rest = "" →
      read_current_user validate auth_header =
        .error (.httpException 401 emptyTokenMsg))
  ∧ (∀ tok, extract_bearer_token auth_header = .ok tok →
      (∀ e, validate tok = .error e →
        read_current_user validate auth_header = .error e)
    ∧ (∀ claims, validate tok = .ok claims →
        read_current_user validate auth_header =
          .ok { id := (build_user_info_from_claims claims).id
                name := (build_user_info_from_claims claims).name
                email := (build_user_info_from_claims claims).email
                groups := (build_user_info_from_claims claims).groups })) := by
  refine ⟨?_, ?_, ?_, ?_⟩
  · intro hn
    subst hn
    rfl
  · intro h hh hpre
    subst hh
    by_cases he : h = ""
    · subst he
      rfl
    · simp [read_current_user, get_current_user_claims, extract_bearer_token,
        he, hpre]
  · intro h pre rest hh hpre hsplit hstrip
    subst hh
    by_cases he : h = ""
    · subst he
      exact absurd hpre (by decide)
    · simp [read_current_user, get_current_user_claims, extract_bearer_token,
        he, hpre, hsplit, hstrip]
  · intro tok htok
    constructor
    · intro e he
      simp [read_current_user, get_current_user_claims, htok, he]
    · intro claims hc
      simp [read_current_user, get_current_user_claims, htok, hc]

/-- Witness for C5 at concrete inputs: the header Bearer abc reaches the
validator with token abc and the resulting claims are projected, while an
absent header fails with the missing-credentials 401. -/
theorem c5_witness :
    read_current_user demoValidate (some "Bearer abc") =
      .ok { id := .jstr "abc", name := .jnull, email := .jnull, groups := [] }
  ∧ read_current_user demoValidate none =
      .error (.httpException 401 missingAuthMsg) := by
  have h := c5_gateway demoValidate (some "Bearer abc")
  have h0 := c5_gateway demoValidate none
  refine ⟨?_, h0.1 rfl⟩
  have hp := (h.2.2.2 "abc" (by rfl)).2 [("sub", .jstr "abc")] rfl
  rw [hp]
  rfl

/-- C6: once the key set has been fetched, key resolution inside
`validate_jwt` is a pure scan of the cached key set: a token whose parsed
header has no truthy kid fails with the 401 MissingKeyId detail, and a
truthy kid matching no entry fails with the 401 UnknownSigningKey detail.
In both cases the fetch log of the whole call equals the log of the
initial key-set acquisition, so the implementation performs zero forced
refreshes of the key set before failing — at most one, and never
indefinitely. -/
theorem c6_key_resolution (oracle : JoseOracle) (clock : Nat → Nat)
    (http : HttpOracle) (token : String) (s : AzureADSettings)
    (jwks : JValue) (log : List String) (hdr : Dict)
    (hj : get_jwks http s = (.ok jwks, log))
    (hh : oracle.getUnverifiedHeader token = .ok hdr) :
    ((dGet hdr "kid").truthy = false →
      validate_jwt oracle clock http token s =
        (.error (.httpException 401 missingKidMsg), log))
  ∧ (∀ keys, (dGet hdr "kid").truthy = true →
      pyDictGetD jwks "keys" (.jlist []) = .ok (.jlist keys) →
      findKeyByKid (dGet hdr "kid") keys = .ok none →
      validate_jwt oracle clock http token s =
        (.error (.httpException 401 unknownKeyMsg), log)) := by
  constructor
  · intro hkid
    unfold validate_jwt
    rw [hj]
    dsimp only
    have hk : _get_signing_key oracle token jwks =
        .error (.httpException 401 missingKidMsg) := by
      simp [_get_signing_key, hh, hkid]
    rw [hk]
  · intro keys hkid hkeys hfind
    unfold validate_jwt
    rw [hj]
    dsimp only
    have hk : _get_signing_key oracle token jwks =
        .error (.httpException 401 unknownKeyMsg) := by
      simp [_get_signing_key, hh, hkid, hkeys, hfind]
    rw [hk]

/-- Witness for C6 at concrete inputs: the token whose header lacks a kid
fails with MissingKeyId, the token with the unknown kid zz fails with
UnknownSigningKey, and both calls fetch exactly the one URL of the initial
key-set acquisition. -/
theorem c6_witness :
    validate_jwt demoOracleHdr (fun _ => 0) demoHttp "nokid" demoSettings =
      (.error (.httpException 401 missingKidMsg), ["https://example/jwks"])
  ∧ validate_jwt demoOracleHdr (fun _ => 0) demoHttp "unknown" demoSettings =
      (.error (.httpException 401 unknownKeyMsg), ["https://example/jwks"]) := by
  have h1 := c6_key_resolution demoOracleHdr (fun _ => 0) demoHttp "nokid"
    demoSettings demoJwks ["https://example/jwks"] [("alg", .jstr "RS256")]
    (by rfl) (by rfl)
  have h2 := c6_key_resolution demoOracleHdr (fun _ => 0) demoHttp "unknown"
    demoSettings demoJwks ["https://example/jwks"]
    [("alg", .jstr "RS256"), ("kid", .jstr "zz")] (by rfl) (by rfl)
  exact ⟨h1.1 (by rfl), h2.2 [demoKey] (by rfl) (by rfl) (by rfl)⟩

/-- C7 counterexample: with no explicit JWKS URL configured and a
discovery document that lacks the jwks_uri field, `get_openid_config`
does not fail at all — it returns the document unchanged — contradicting
the claim that the discovery-document operation itself rejects such a
document with MalformedProviderMetadata. -/
theorem c7_counterexample :
    (get_openid_config demoHttpNoUri demoSettingsNoJwksUri).1 =
      .ok (.jobj [("issuer", .jstr "x")])
  ∧ ∀ e, (get_openid_config demoHttpNoUri demoSettingsNoJwksUri).1 ≠
      .error e := by
  refine ⟨by rfl, ?_⟩
  intro e h
  have h2 : (Except.ok (JValue.jobj [("issuer", .jstr "x")]) :
      Except PyError JValue) = .error e := by
    rw [← h]
    rfl
  exact Except.noConfusion h2

/-- C7 as amended by the counterexample: `get_openid_config` fails with
the upstream kind exactly when the HTTP GET fails, and otherwise returns
the fetched document without inspecting it; the missing-jwks_uri
rejection (the MalformedProviderMetadata RuntimeError) is performed by
`get_jwks` when no explicit JWKS URL is configured and the discovery
document has no truthy jwks_uri field. -/
theorem c7_amended_jwks_uri_check (http : HttpOracle) (s : AzureADSettings)
    (fs : List (String × JValue))
    (hns : s.jwks_uri = none)
    (hfetch : http.get s.openid_config_url = .ok (.jobj fs))
    (hnouri : ((fs.lookup "jwks_uri").getD .jnull).truthy = false) :
    (get_openid_config http s).1 = .ok (.jobj fs)
  ∧ (get_jwks http s).1 = .error (.runtimeError jwksUriMissingMsg)
  ∧ (∀ (http2 : HttpOracle) (e : PyError),
      http2.get s.openid_config_url = .error e →
      (get_openid_config http2 s).1 = .error e) := by
  refine ⟨?_, ?_, ?_⟩
  · simp [get_openid_config, hfetch]
  · unfold get_jwks
    rw [hns]
    dsimp only
    unfold get_openid_config
    rw [hfetch]
    dsimp only [pyDictGetD]
    rw [hnouri]
    rfl
  · intro http2 e he
    simp [get_openid_config, he]

/-- Witness for C7 as amended at concrete inputs: the discovery document
lacking jwks_uri is returned unchanged by `get_openid_config`, while
`get_jwks` rejects it with the RuntimeError, and a failing GET surfaces
as the upstream error. -/
theorem c7_witness :
    (get_openid_config demoHttpNoUri demoSettingsNoJwksUri).1 =
      .ok (.jobj [("issuer", .jstr "x")])
  ∧ (get_jwks demoHttpNoUri demoSettingsNoJwksUri).1 =
      .error (.runtimeError jwksUriMissingMsg)
  ∧ (get_openid_config demoHttp demoSettingsNoJwksUri).1 =
      .error (.httpxError "connection failed") := by
  have h := c7_amended_jwks_uri_check demoHttpNoUri demoSettingsNoJwksUri
    [("issuer", .jstr "x")] rfl (by rfl) (by rfl)
  exact ⟨h.1, h.2.1, h.2.2 demoHttp (.httpxError "connection failed") (by rfl)⟩

/-- C9: a structurally malformed token — here the token bad, whose header
segment the jose parser cannot decode — makes `validate_jwt` fail with the
raw propagated parser exception (`joseError`), which is not one of the
unauthorized-kind HTTPException failures of the error taxonomy; the
gateway `read_current_user` propagates the same uncaught exception. -/
theorem c9_malformed_token_uncaught :
    (validate_jwt demoOracleHdr (fun _ => 0) demoHttp "bad" demoSettings).1 =
      .error (.joseError "Error decoding token headers.")
  ∧ PyError.isUnauthorized (.joseError "Error decoding token headers.") = false
  ∧ read_current_user
      (fun t => (validate_jwt demoOracleHdr (fun _ => 0) demoHttp t demoSettings).1)
      (some "Bearer bad") =
      .error (.joseError "Error decoding token headers.") := by
  exact ⟨by rfl, rfl, by rfl⟩

/-- C10: the bearer mark of the Authorization header is matched
case-insensitively: any header value whose lowercased form starts with the
seven characters bearer-space, and whose text after the first space strips
to a non-empty token, passes extraction, and the stripped token is exactly
what the gateway hands to the validator. -/
theorem c10_case_insensitive_bearer (validate : String → Except PyError Dict)
    (v pre rest : String)
    (hpre : pyStartsWith (pyLower v) "bearer " = true)
    (hsplit : splitOnceSpace v = some (pre, rest))
    (hne : pyStrip rest ≠ "") :
    extract_bearer_token (some v) = .ok (pyStrip rest)
  ∧ get_current_user_claims validate (some v) = validate (pyStrip rest) := by
  by_cases he : v = ""
  · subst he
    exact absurd hpre (by decide)
  · constructor
    · simp [extract_bearer_token, he, hpre, hsplit, hne]
    · simp [get_current_user_claims, extract_bearer_token, he, hpre, hsplit, hne]

/-- Witness for C10 at concrete inputs: the header BEARER x (uppercase
mark) extracts the token x and the validator receives exactly x. -/
theorem c10_witness :
    extract_bearer_token (some "BEARER x") = .ok "x"
  ∧ get_current_user_claims demoValidate (some "BEARER x") =
      .ok [("sub", .jstr "x")] := by
  have h := c10_case_insensitive_bearer demoValidate "BEARER x" "BEARER" "x"
    (by decide) (by rfl) (by decide)
  exact ⟨h.1, h.2⟩

end AzureAD
